import Mathlib

set_option linter.unusedVariables false

/-!
Verification of the MIDISock server (server.py): device-name mojibake
healing and normalized matching, configuration-driven port resolution,
channel parsing, the MIDI note dispatch path, the socket singleton guard
and the accept-loop connection handling, shallowly embedded in Lean.

Foreign Python facilities that cannot be reproduced exactly (Unicode
NFKC normalization, casefolding, the `re` engine, the cp1252/mac_roman/
latin-1 codecs and UTF-8 decoding) are abstracted as an explicit
environment `PyUni`; everything else is translated directly from
server.py.
-/

/-- YAML/Python value tree as produced by yaml.safe_load. Floating-point
values are not modelled (no verified property involves them). -/
inductive Yaml where
  | null
  | bool (b : Bool)
  | int (n : Int)
  | str (s : String)
  | list (xs : List Yaml)
  | dict (kvs : List (String × Yaml))

/-- Python truthiness of a YAML value (used by `or` defaults and the
`if dev_cfg.get("name"):` tests in server.py). -/
def pyTruthy : Yaml → Bool
  | Yaml.null => false
  | Yaml.bool b => b
  | Yaml.int n => n != 0
  | Yaml.str s => s != ""
  | Yaml.list xs => !xs.isEmpty
  | Yaml.dict kvs => !kvs.isEmpty

/-- Whether a YAML value is a dict (Python `isinstance(x, dict)`). -/
def Yaml.isDict : Yaml → Bool
  | Yaml.dict _ => true
  | _ => false

/-- Python `x or d` for an optional dictionary lookup result: `None`
(absent key) and falsy values are replaced by the default. -/
def pyOr (o : Option Yaml) (d : Yaml) : Yaml :=
  match o with
  | some v => if pyTruthy v then v else d
  | none => d

/-- Python `dict.get(k)`: first binding of the key in the association
list modelling the dict (keys of a Python dict are unique). -/
def alGet (kvs : List (String × Yaml)) (k : String) : Option Yaml :=
  kvs.lookup k

/-- Truthiness of a `dict.get` result (`None` for an absent key is
falsy). -/
def optTruthy (o : Option Yaml) : Bool :=
  match o with
  | some v => pyTruthy v
  | none => false

/-- Python `str()` conversion. Exact on the scalar values the program
ever reads from configuration; container values are given a fixed
bracketed rendering (their precise repr text affects no verified
property, only the content of a filter needle). -/
def pyStr : Yaml → String
  | Yaml.str s => s
  | Yaml.int n => toString n
  | Yaml.bool b => if b then "True" else "False"
  | Yaml.null => "None"
  | Yaml.list _ => "[...]"
  | Yaml.dict _ => "\x7b...\x7d"

/-- Abstracted Python Unicode/codec environment: `nfkc` is
unicodedata.normalize("NFKC", ·), `casefold` is str.casefold, `searchCI`
is re.compile(pat, re.IGNORECASE).search(s) ≠ None (pattern first),
`encode e s` is s.encode(e, errors="strict") (None when it raises),
`utf8decodeStrict` is bytes.decode("utf-8", errors="strict") and
`utf8decodeIgnore` is bytes.decode("utf-8", errors="ignore"), which
never raises. -/
structure PyUni where
  nfkc : String → String
  casefold : String → String
  searchCI : String → String → Bool
  encode : String → String → Option (List Nat)
  utf8decodeStrict : List Nat → Option String
  utf8decodeIgnore : List Nat → String

/-- NFKC + casefold normalization for matching (server.py `_norm`). -/
def _norm (U : PyUni) (s : String) : String :=
  U.casefold (U.nfkc s)

/-- Python str.isspace / regex whitespace class membership for a single
character (ASCII whitespace, the C1 separators, and the Unicode space
separators). -/
def isPySpace (c : Char) : Bool :=
  decide ((9 ≤ c.toNat ∧ c.toNat ≤ 13) ∨ c.toNat = 32 ∨
    (28 ≤ c.toNat ∧ c.toNat ≤ 31) ∨ c.toNat = 0x85 ∨ c.toNat = 0xa0 ∨
    c.toNat = 0x1680 ∨ (0x2000 ≤ c.toNat ∧ c.toNat ≤ 0x200a) ∨
    c.toNat = 0x2028 ∨ c.toNat = 0x2029 ∨ c.toNat = 0x202f ∨
    c.toNat = 0x205f ∨ c.toNat = 0x3000)

/-- Python str.strip(): drop leading and trailing whitespace. -/
def pyStrip (s : String) : String :=
  String.mk (((s.data.dropWhile isPySpace).reverse.dropWhile isPySpace).reverse)

/-- Character class of the token delimiter regex [,\s] in server.py's
`re.split(r"[,\s]+", text)`. -/
def isSepChar (c : Char) : Bool :=
  c == ',' || isPySpace c

/-- Length of `List.dropWhile` never exceeds the input length (used for
the termination of `splitFieldsGo`). -/
theorem dropWhileLenLe (p : Char → Bool) (l : List Char) :
    (List.dropWhile p l).length ≤ l.length := by
  induction l with
  | nil => exact Nat.le_refl 0
  | cons c cs ih =>
    cases hpc : p c with
    | true =>
      have h1 : List.dropWhile p (c :: cs) = List.dropWhile p cs := by
        simp [List.dropWhile, hpc]
      rw [h1]
      exact Nat.le_succ_of_le ih
    | false =>
      have h1 : List.dropWhile p (c :: cs) = c :: cs := by
        simp [List.dropWhile, hpc]
      rw [h1]

/-- Worker for `splitFields`: `acc` holds the current field's characters
in reverse; a separator character closes the field and skips the rest of
the separator run. -/
def splitFieldsGo (acc : List Char) (l : List Char) : List (List Char) :=
  match l with
  | [] => [acc.reverse]
  | c :: cs =>
    if isSepChar c then
      acc.reverse :: splitFieldsGo [] (cs.dropWhile isSepChar)
    else
      splitFieldsGo (c :: acc) cs
termination_by l.length
decreasing_by
· exact Nat.lt_succ_of_le (dropWhileLenLe isSepChar cs)
· exact Nat.lt_succ_self cs.length

/-- Python `re.split(r"[,\s]+", text)`: fields between maximal runs of
separator characters, with an empty leading/trailing field when the text
starts/ends with a separator. -/
def splitFields (l : List Char) : List (List Char) :=
  splitFieldsGo [] l

/-- Python substring containment `sub in s` on character lists. -/
def listIsInfixOf (sub : List Char) : List Char → Bool
  | [] => sub.isEmpty
  | c :: cs => sub.isPrefixOf (c :: cs) || listIsInfixOf sub cs

/-- Python substring containment `sub in s` on strings. -/
def pyInStr (sub s : String) : Bool :=
  listIsInfixOf sub.data s.data

/-- Note-name table of server.py: `_NOTE_NAMES`, sharps only
(the twelve semitone names C .. B in order). -/
def _NOTE_NAMES : List String :=
  ["C", "C#"] ++ ["D", "D#"] ++ ["E", "F"] ++
    ["F#", "G"] ++ ["G#", "A"] ++ ["A#", "B"]

/-- Name of MIDI note number n, per the comprehension building
NOTE_TO_NUM: `_NOTE_NAMES[n % 12]` followed by the octave `(n // 12) - 1`. -/
def noteNameOf (n : Nat) : String :=
  _NOTE_NAMES.getD (n % 12) "" ++ toString ((n : Int) / 12 - 1)

/-- NOTE_TO_NUM of server.py: the full 0..127 note table, as an
association list with the dict's (unique) keys in construction order. -/
def NOTE_TO_NUM : List (String × Nat) :=
  (List.range 128).map (fun n => (noteNameOf n, n))

/-- Mojibake hint characters of server.py `_BAD_HINTS`:
Â Ã Ä Å æ ð ø þ � „ É ê Ç π. -/
def _BAD_HINTS : List Char :=
  ['Â', 'Ã', 'Ä', 'Å', 'æ', 'ð', 'ø',
   'þ', '�', '„', 'É', 'ê', 'Ç', 'π']

/-- server.py `_looks_mojibake`: any hint character occurs in the name
(a one-character Python `in` test is character membership). -/
def _looks_mojibake (s : String) : Bool :=
  _BAD_HINTS.any (fun ch => s.data.contains ch)

/-- Legacy encodings tried by `_variants_from_mojibake`, in the source's
fixed order. -/
def encNames : List String :=
  ["cp1252", "mac_roman", "latin-1"]

/-- Order-preserving first-seen deduplication with an explicit seen set,
as in the dedup loop of `_variants_from_mojibake`. -/
def dedupFirstSeen (seen : List String) : List String → List String
  | [] => []
  | x :: xs =>
    if seen.contains x then dedupFirstSeen seen xs
    else x :: dedupFirstSeen (x :: seen) xs

/-- server.py `_variants_from_mojibake`: for each legacy encoding, try
to re-encode strictly and re-decode the bytes as UTF-8; keep a candidate
when both steps succeed and it differs from the input; then dedup
preserving first-seen order. -/
def _variants_from_mojibake (U : PyUni) (s : String) : List String :=
  let out := encNames.filterMap (fun enc =>
    match U.encode enc s with
    | none => none
    | some b =>
      match U.utf8decodeStrict b with
      | none => none
      | some cand => if cand = s then none else some cand)
  dedupFirstSeen [] out

/-- Character range test of `_port_display`: Hiragana/Katakana
(U+3040..U+30FF) or CJK Unified Ideographs (U+4E00..U+9FFF). -/
def isCjkKana (c : Char) : Bool :=
  decide ((0x3040 ≤ c.toNat ∧ c.toNat ≤ 0x30ff) ∨
    (0x4e00 ≤ c.toNat ∧ c.toNat ≤ 0x9fff))

/-- server.py `_port_display`: healed display form. On a suspect name,
return the first variant containing a CJK/Kana character, else the first
variant, else the original. -/
def _port_display (U : PyUni) (orig : String) : String :=
  if _looks_mojibake orig then
    let fixes := _variants_from_mojibake U orig
    match fixes.find? (fun f => f.data.any isCjkKana) with
    | some f => f
    | none =>
      match fixes with
      | f :: _ => f
      | [] => orig
  else orig

/-- Device record of server.py `_record_for_port`: original name, healed
alternates, normalized forms of original and alternates (a Python set,
modelled as a first-seen-deduplicated list — only membership is ever
used), healed display name. -/
structure PortRec where
  orig : String
  alts : List String
  nrms : List String
  disp : String

/-- server.py `_record_for_port`. -/
def _record_for_port (U : PyUni) (orig : String) : PortRec :=
  let alts := if _looks_mojibake orig then _variants_from_mojibake U orig else []
  let nrms := dedupFirstSeen [] (_norm U orig :: alts.map (_norm U))
  PortRec.mk orig alts nrms (_port_display U orig)

/-- server.py `_filter_by_name`: empty needle passes all records; else
keep records one of whose normalized forms contains the normalized
needle as a substring. -/
def _filter_by_name (U : PyUni) (recs : List PortRec) (needle : String) :
    List PortRec :=
  if needle = "" then recs
  else
    let nd := _norm U needle
    recs.filter (fun r => r.nrms.any (fun n => pyInStr nd n))

/-- server.py `_filter_by_regex`: empty pattern passes all records; else
NFKC-normalize the pattern (`_compile_regex`), compile case-insensitively
and keep records one of whose normalized forms the pattern matches by
unanchored search. -/
def _filter_by_regex (U : PyUni) (recs : List PortRec) (pattern : String) :
    List PortRec :=
  if pattern = "" then recs
  else
    let rxp := U.nfkc pattern
    recs.filter (fun r => r.nrms.any (fun n => U.searchCI rxp n))

/-- Filter block repeated at the device and port levels of
`_resolve_port` (server.py lines 186-198): only a dict section filters;
a truthy "name" applies the literal filter, else a truthy "regex"
applies the regex filter, else the section is a no-op. -/
def _apply_section_filter (U : PyUni) (sec : Yaml) (rs : List PortRec) :
    List PortRec :=
  match sec with
  | Yaml.dict kvs =>
    if optTruthy (alGet kvs "name") then
      _filter_by_name U rs (pyStr ((alGet kvs "name").getD Yaml.null))
    else if optTruthy (alGet kvs "regex") then
      _filter_by_regex U rs (pyStr ((alGet kvs "regex").getD Yaml.null))
    else rs
  | _ => rs

/-- server.py `_resolve_port`. The enumerated port list (`_list_ports`,
an external rtmidi call) is passed in. The `.error` case is the uncaught
AttributeError the source raises when the `midi` section is a truthy
non-dict value (`midi_cfg.get` on a non-dict). Returns the resolved raw
name (when exactly one record matched), the matched display names, and
the full display list. -/
def _resolve_port (U : PyUni) (ports : List String)
    (cfg : List (String × Yaml)) :
    Except Unit (Option String × List String × List String) :=
  let recs := ports.map (_record_for_port U)
  match pyOr (alGet cfg "midi") (Yaml.dict []) with
  | Yaml.dict mkvs =>
    let dev_cfg := pyOr (alGet mkvs "device") (Yaml.dict [])
    let por_cfg := pyOr (alGet mkvs "port") (Yaml.dict [])
    let matched := _apply_section_filter U por_cfg
      (_apply_section_filter U dev_cfg recs)
    match matched with
    | [m] => Except.ok (some m.orig, [m.disp], recs.map PortRec.disp)
    | _ => Except.ok (none, matched.map PortRec.disp, recs.map PortRec.disp)
  | _ => Except.error ()

/-- Python int() of a string: strip whitespace, optional sign, decimal
digits (exact for the plain decimal literals relevant here). -/
def pyStrToInt (s : String) : Option Int :=
  match (pyStrip s).data with
  | [] => none
  | c :: cs =>
    let ds := if c = '-' ∨ c = '+' then cs else c :: cs
    let sign : Int := if c = '-' then -1 else 1
    if ds ≠ [] ∧ ds.all Char.isDigit then
      some (sign * (ds.foldl (fun acc d => acc * 10 + (d.toNat - 48)) 0 : Nat))
    else none

/-- Python int() applied to a YAML scalar: exact on ints, bools and
decimal strings; None and containers raise (here: none). -/
def pyToInt : Yaml → Option Int
  | Yaml.int n => some n
  | Yaml.bool b => some (if b then 1 else 0)
  | Yaml.str s => pyStrToInt s
  | _ => none

/-- server.py `_channel_from_config`: channel from `midi.channel` with
default 1; any exception inside int(...) (absent dict, non-numeric
value) yields 1; the result is clamped to [1,16]. -/
def _channel_from_config (cfg : List (String × Yaml)) : Int :=
  let midi_cfg := pyOr (alGet cfg "midi") (Yaml.dict [])
  let ch : Int :=
    match midi_cfg with
    | Yaml.dict kvs =>
      match alGet kvs "channel" with
      | none => 1
      | some v => (pyToInt v).getD 1
    | _ => 1
  if ch < 1 then 1 else if ch > 16 then 16 else ch

/-- Raw configured channel value consulted by `_channel_from_config`:
the `midi.channel` entry when the (defaulted) midi section is a dict. -/
def channelRaw (cfg : List (String × Yaml)) : Option Yaml :=
  match pyOr (alGet cfg "midi") (Yaml.dict []) with
  | Yaml.dict kvs => alGet kvs "channel"
  | _ => none

/-- Observable actions of the dispatch and accept-loop paths: a MIDI
send_message call that succeeded, the time.sleep between note on and
note off (milliseconds; the source sleeps 0.05 s), and invocations of
the `_warn` / `_debug` logging helpers. -/
inductive Ev where
  | send (msg : List Int)
  | sleepMs (ms : Nat)
  | logWarn
  | logDebug
deriving DecidableEq

/-- Whether an action is a MIDI send. -/
def Ev.isSend : Ev → Bool
  | Ev.send _ => true
  | _ => false

/-- Open rtmidi output handle. `failAt k` tells whether the k-th
send_message call on this handle raises (the outcome oracle of the
external device); `sent` counts the calls made so far. -/
structure MidiOut where
  failAt : Nat → Bool
  sent : Nat

/-- Mutable server globals of server.py: `_MIDIOUT`, `_STATUS_ON`,
`_STATUS_OFF`. -/
structure SrvSt where
  midiout : Option MidiOut
  statusOn : Int
  statusOff : Int

/-- server.py `_send_note`: unknown token → debug log only; absent
handle → silent return; otherwise send note-on, sleep 0.05 s, send
note-off; if a send raises, warn and tear the handle down
(`_close_midi_out`), leaving the status bytes in place. -/
def _send_note (st : SrvSt) (note_name : String) : SrvSt × List Ev :=
  match NOTE_TO_NUM.lookup note_name, st.midiout with
  | none, _ => (st, [Ev.logDebug])
  | some _, none => (st, [])
  | some n, some h =>
    if h.failAt h.sent then
      (SrvSt.mk none st.statusOn st.statusOff, [Ev.logWarn])
    else if h.failAt (h.sent + 1) then
      (SrvSt.mk none st.statusOn st.statusOff,
        [Ev.send [st.statusOn, (n : Int), 127], Ev.sleepMs 50, Ev.logWarn])
    else
      (SrvSt.mk (some (MidiOut.mk h.failAt (h.sent + 2))) st.statusOn st.statusOff,
        [Ev.send [st.statusOn, (n : Int), 127], Ev.sleepMs 50,
         Ev.send [st.statusOff, (n : Int), 0]])

/-- Status-byte computation of main() (server.py lines 396-398),
performed once at startup from the configured channel: `_STATUS_ON =
0x90 + (ch - 1)`, `_STATUS_OFF = 0x80 + (ch - 1)`. -/
def statusBytesForChannel (ch : Int) : Int × Int :=
  (0x90 + (ch - 1), 0x80 + (ch - 1))

/-- Environment observed by `_ensure_singleton_sock_or_exit`: whether
SOCK_PATH is a symlink, whether a filesystem entry exists there, and
whether the short-timeout probe connection succeeds. -/
structure GuardEnv where
  islink : Bool
  sockExists : Bool
  connectOk : Bool

/-- Result of the singleton guard: process exit with a status, or
proceed to bind. -/
inductive GuardRes where
  | exitCode (n : Nat)
  | proceed
deriving DecidableEq

/-- Filesystem actions the guard performs on the endpoint path. -/
inductive FsOp where
  | removeSock
deriving DecidableEq

/-- server.py `_ensure_singleton_sock_or_exit` (with the inlined
`_abort_if_sock_symlink`): a symlink at SOCK_PATH is fatal (exit 1); an
existing entry is probed with a 0.2 s-timeout connection — success means
another live instance, so exit 0 touching nothing; failure means the
entry is stale, so remove it (best-effort; a removal error is swallowed)
and proceed to bind. -/
def _ensure_singleton_sock_or_exit (e : GuardEnv) : GuardRes × List FsOp :=
  if e.islink then (GuardRes.exitCode 1, [])
  else if e.sockExists then
    if e.connectOk then (GuardRes.exitCode 0, [])
    else (GuardRes.proceed, [FsOp.removeSock])
  else (GuardRes.proceed, [])

/-- Outcome of conn.recv(1024): timeout, another error, or data. -/
inductive RecvRes where
  | timeout
  | err
  | data (bs : List Nat)

/-- Environment of one accepted connection: whether conn.settimeout
succeeds, and the recv outcome. -/
structure ConnEnv where
  settimeoutOk : Bool
  recv : RecvRes

/-- Outcome of one accept call: a transient error, or a connection. -/
inductive AcceptRes where
  | err
  | conn (c : ConnEnv)

/-- Result of one iteration of the accept loop: continue with a new
server state and the actions performed, or exit the process (never
produced by the loop body; the type also covers the fatal bind path). -/
inductive IterRes where
  | continue_ (st : SrvSt) (acts : List Ev)
  | exitProcess (n : Nat)

/-- Body of the `with conn:` block of `_socket_server` (server.py lines
316-342): a settimeout failure is a debug log only; timeout, read error
and empty read drop the client; otherwise decode UTF-8 ignoring errors,
strip, take the first [,\s]+-delimited token, and dispatch it when
non-empty. Malformed inputs are swallowed (decode with errors="ignore",
re.split and `_send_note` raise nothing). -/
def _handle_conn (U : PyUni) (st : SrvSt) (c : ConnEnv) : SrvSt × List Ev :=
  let evs0 : List Ev := if c.settimeoutOk then [] else [Ev.logDebug]
  match c.recv with
  | RecvRes.timeout => (st, evs0)
  | RecvRes.err => (st, evs0)
  | RecvRes.data bs =>
    if bs.isEmpty then (st, evs0)
    else
      let text := pyStrip (U.utf8decodeIgnore bs)
      let token := if text = "" then "" else
        String.mk ((splitFields text.data).headD [])
      if token = "" then (st, evs0)
      else
        let r := _send_note st token
        (r.1, evs0 ++ r.2)

/-- One iteration of the `while True` accept loop of `_socket_server`
(server.py lines 307-342): an accept error sleeps 0.05 s and retries;
an accepted connection is handled by the `with conn:` block. -/
def _socket_server_iter (U : PyUni) (st : SrvSt) (a : AcceptRes) : IterRes :=
  match a with
  | AcceptRes.err => IterRes.continue_ st [Ev.sleepMs 50]
  | AcceptRes.conn c =>
    IterRes.continue_ (_handle_conn U st c).1 (_handle_conn U st c).2

/-- FilterSpec of the spec's data model (§3): an optional filter is
either a literal name, a regex, or absent. -/
inductive FilterSpecKind where
  | literal (v : String)
  | regex (v : String)
  | noFilter

/-- Extraction of a FilterSpec from one configuration filter section,
following the spec's wording: at most one of literal/regex is active,
the literal `name` taking precedence; a non-dict or empty section means
no filter. -/
def filterSpecOfSection (sec : Yaml) : FilterSpecKind :=
  match sec with
  | Yaml.dict kvs =>
    if optTruthy (alGet kvs "name") then
      FilterSpecKind.literal (pyStr ((alGet kvs "name").getD Yaml.null))
    else if optTruthy (alGet kvs "regex") then
      FilterSpecKind.regex (pyStr ((alGet kvs "regex").getD Yaml.null))
    else FilterSpecKind.noFilter
  | _ => FilterSpecKind.noFilter

/-- Matcher of the spec (§4.2): apply one optional filter to the record
list; an absent filter is a no-op. -/
def applyFilterSpec (U : PyUni) (fs : FilterSpecKind) (rs : List PortRec) :
    List PortRec :=
  match fs with
  | FilterSpecKind.literal v => _filter_by_name U rs v
  | FilterSpecKind.regex v => _filter_by_regex U rs v
  | FilterSpecKind.noFilter => rs

/-- Resolution as worded by claim C1 / spec §4.3: apply the optional
device-level filter, then the optional port-level filter, in that fixed
order; succeed exactly when one record remains, returning its original
name and healed display; otherwise return no name, the healed display
names of the matched subset, and the full unfiltered healed display
list. -/
def resolveSpecC1 (U : PyUni) (ports : List String)
    (cfg : List (String × Yaml)) :
    Option String × List String × List String :=
  let recs := ports.map (_record_for_port U)
  let midi := pyOr (alGet cfg "midi") (Yaml.dict [])
  let devSpec := filterSpecOfSection (pyOr
    (match midi with | Yaml.dict mkvs => alGet mkvs "device" | _ => none)
    (Yaml.dict []))
  let porSpec := filterSpecOfSection (pyOr
    (match midi with | Yaml.dict mkvs => alGet mkvs "port" | _ => none)
    (Yaml.dict []))
  let matched := applyFilterSpec U porSpec (applyFilterSpec U devSpec recs)
  match matched with
  | [m] => (some m.orig, [m.disp], recs.map PortRec.disp)
  | _ => (none, matched.map PortRec.disp, recs.map PortRec.disp)

/-- Healing as worded by claim C6: identity on non-suspect names; on a
suspect name, candidates are built by encoding under cp1252, mac_roman,
latin-1 in that fixed order and re-decoding as UTF-8, keeping only
candidates that differ from the input, deduplicated in first-seen order;
the result is the first candidate containing a Hiragana/Katakana or CJK
Unified Ideographs character, otherwise the first candidate, otherwise
the original. -/
def healSpecC6 (U : PyUni) (s : String) : String :=
  if _looks_mojibake s then
    let raw := encNames.filterMap (fun enc => (U.encode enc s).bind U.utf8decodeStrict)
    let cands := dedupFirstSeen [] (raw.filter (fun c => c != s))
    match cands.find? (fun f => f.data.any isCjkKana) with
    | some f => f
    | none => cands.headD s
  else s

/-- UTF-8 decoding with errors="ignore", restricted to the ASCII plane:
bytes ≥ 0x80 are dropped. Used as the concrete decoder of the witness
environment (exact for ASCII payloads). -/
def asciiDecodeIgnore (bs : List Nat) : String :=
  String.mk (bs.filterMap (fun b => if b < 128 then some (Char.ofNat b) else none))

/-- Concrete Unicode/codec environment used by the witnesses: identity
normalization and casefolding, substring search, no legacy encoder, the
ASCII decoder. -/
def idUni : PyUni :=
  PyUni.mk id id (fun p s => pyInStr p s) (fun _ _ => none) (fun _ => none)
    asciiDecodeIgnore

/-- Characterization of `_channel_from_config` through `channelRaw`:
the pre-clamp value is 1 for an absent/unreadable entry, else the
Python-int conversion with fallback 1. -/
theorem channelFromConfigEq (cfg : List (String × Yaml)) :
    _channel_from_config cfg =
      (let ch : Int := match channelRaw cfg with
        | none => 1
        | some v => (pyToInt v).getD 1
       if ch < 1 then 1 else if ch > 16 then 16 else ch) := by
  unfold _channel_from_config channelRaw
  cases pyOr (alGet cfg "midi") (Yaml.dict []) <;> rfl

/-- C8: for every configuration tree the resolved channel lies in
[1,16]; an absent channel yields 1, a non-numeric channel yields the
default 1, a numeric value below 1 clamps to 1, above 16 clamps to 16,
and any other numeric value is returned as given. -/
theorem c8_channel_clamped (cfg : List (String × Yaml)) :
    (1 ≤ _channel_from_config cfg ∧ _channel_from_config cfg ≤ 16) ∧
    (channelRaw cfg = none → _channel_from_config cfg = 1) ∧
    (∀ v, channelRaw cfg = some v → pyToInt v = none →
      _channel_from_config cfg = 1) ∧
    (∀ v n, channelRaw cfg = some v → pyToInt v = some n →
      _channel_from_config cfg = if n < 1 then 1 else if n > 16 then 16 else n) := by
  rw [channelFromConfigEq]
  cases hr : channelRaw cfg with
  | none =>
    refine ⟨⟨by norm_num, by norm_num⟩, fun _ => by norm_num, ?_, ?_⟩
    · intro v hv
      exact absurd hv (by simp)
    · intro v n hv
      exact absurd hv (by simp)
  | some v =>
    cases hi : pyToInt v with
    | none =>
      refine ⟨⟨by simp [hi], by simp [hi]⟩, by simp, ?_, ?_⟩
      · intro v' hv' _
        cases hv'
        simp [hi]
      · intro v' n hv' hn
        cases hv'
        rw [hi] at hn
        cases hn
    | some n =>
      refine ⟨⟨?_, ?_⟩, by simp, ?_, ?_⟩
      · simp only [hi, Option.getD]
        split_ifs <;> omega
      · simp only [hi, Option.getD]
        split_ifs <;> omega
      · intro v' hv' hn
        cases hv'
        rw [hi] at hn
        cases hn
      · intro v' m hv' hm
        cases hv'
        rw [hi] at hm
        cases hm
        simp [hi]

/-- Witness for C8: the configuration `midi: {channel: 99}` clamps to
16, and its channel lies in [1,16]. -/
theorem c8_witness :
    (1 ≤ _channel_from_config [("midi", Yaml.dict [("channel", Yaml.int 99)])] ∧
     _channel_from_config [("midi", Yaml.dict [("channel", Yaml.int 99)])] ≤ 16) ∧
    _channel_from_config [("midi", Yaml.dict [("channel", Yaml.int 99)])] =
      (if (99 : Int) < 1 then 1 else if (99 : Int) > 16 then 16 else 99) :=
  ⟨(c8_channel_clamped [("midi", Yaml.dict [("channel", Yaml.int 99)])]).1,
   (c8_channel_clamped [("midi", Yaml.dict [("channel", Yaml.int 99)])]).2.2.2
     (Yaml.int 99) 99 rfl rfl⟩

/-- C3: when a (non-symlink) filesystem entry exists at the endpoint
path, the guard probes it with a short-timeout connection; a successful
connection makes the new process exit with status 0 performing no
filesystem operation on the endpoint, and a failed connection makes it
remove the stale entry and proceed to bind. -/
theorem c3_singleton_guard (e : GuardEnv) (hlink : e.islink = false)
    (hex : e.sockExists = true) :
    (e.connectOk = true →
      _ensure_singleton_sock_or_exit e = (GuardRes.exitCode 0, [])) ∧
    (e.connectOk = false →
      _ensure_singleton_sock_or_exit e = (GuardRes.proceed, [FsOp.removeSock])) := by
  constructor
  · intro hc
    simp [_ensure_singleton_sock_or_exit, hlink, hex, hc]
  · intro hc
    simp [_ensure_singleton_sock_or_exit, hlink, hex, hc]

/-- Witness for C3: a live listener makes the second instance exit 0
without touching the endpoint; a stale entry is removed before binding. -/
theorem c3_witness :
    _ensure_singleton_sock_or_exit (GuardEnv.mk false true true) =
      (GuardRes.exitCode 0, []) ∧
    _ensure_singleton_sock_or_exit (GuardEnv.mk false true false) =
      (GuardRes.proceed, [FsOp.removeSock]) :=
  ⟨(c3_singleton_guard (GuardEnv.mk false true true) rfl rfl).1 rfl,
   (c3_singleton_guard (GuardEnv.mk false true false) rfl rfl).2 rfl⟩

/-- C4: dispatch is total (the embedding returns a result for every
input, mirroring the catch-all handling in `_send_note`): an unknown
token produces only a debug log and leaves the state unchanged; a known
token with no handle produces no action at all; if either underlying
send raises, the handle is cleared; and with no handle the dispatcher
never emits a MIDI send, so messages are dropped until a re-open. -/
theorem c4_dispatch_containment (st : SrvSt) (tok : String) :
    (NOTE_TO_NUM.lookup tok = none → _send_note st tok = (st, [Ev.logDebug])) ∧
    (NOTE_TO_NUM.lookup tok ≠ none → st.midiout = none →
      _send_note st tok = (st, [])) ∧
    (∀ f k n, st.midiout = some (MidiOut.mk f k) →
      NOTE_TO_NUM.lookup tok = some n → (f k = true ∨ f (k + 1) = true) →
      (_send_note st tok).1.midiout = none) ∧
    (st.midiout = none → (_send_note st tok).1 = st ∧
      ((_send_note st tok).2.all (fun e => !(Ev.isSend e))) = true) := by
  refine ⟨?_, ?_, ?_, ?_⟩
  · intro hl
    unfold _send_note
    rw [hl]
  · intro hl hm
    unfold _send_note
    rw [hm]
    cases hx : NOTE_TO_NUM.lookup tok with
    | none => exact absurd hx hl
    | some n => rfl
  · intro f k n hm hl hor
    unfold _send_note
    rw [hm, hl]
    rcases hor with h1 | h2
    · simp [h1]
    · cases h1 : f k with
      | true => simp [h1]
      | false => simp [h1, h2]
  · intro hm
    unfold _send_note
    rw [hm]
    cases hx : NOTE_TO_NUM.lookup tok with
    | none => exact ⟨rfl, rfl⟩
    | some n => exact ⟨rfl, rfl⟩

/-- Witness for C4: an unrecognized token is debug-logged and ignored;
with no handle a valid token is dropped silently; a raising send clears
the handle. -/
theorem c4_witness :
    _send_note (SrvSt.mk none 0x90 0x80) "Q9" =
      (SrvSt.mk none 0x90 0x80, [Ev.logDebug]) ∧
    _send_note (SrvSt.mk none 0x90 0x80) "C#4" = (SrvSt.mk none 0x90 0x80, []) ∧
    (_send_note (SrvSt.mk (some (MidiOut.mk (fun _ => true) 0)) 0x90 0x80)
      "C#4").1.midiout = none :=
  ⟨(c4_dispatch_containment (SrvSt.mk none 0x90 0x80) "Q9").1 (by decide),
   (c4_dispatch_containment (SrvSt.mk none 0x90 0x80) "C#4").2.1
     (by decide) rfl,
   (c4_dispatch_containment
       (SrvSt.mk (some (MidiOut.mk (fun _ => true) 0)) 0x90 0x80) "C#4").2.2.1
     (fun _ => true) 0 61 rfl (by decide) (Or.inl rfl)⟩

/-- Lookup of the token "C#4" in the note table yields MIDI note 61. -/
theorem lookupCSharp4 : NOTE_TO_NUM.lookup "C#4" = some 61 := by decide

/-- C2: with a configured channel ch in 1..16 and a live, non-raising
output handle, dispatching "C#4" sends [0x90+(ch-1), 61, 127], holds
50 ms (time.sleep(0.05)), then sends [0x80+(ch-1), 61, 0]. The status
bytes enter the dispatcher only through the state set once at startup by
`statusBytesForChannel` (main, server.py lines 396-398), not per
message. -/
theorem c2_dispatch_note_on_off (ch : Int) (h1 : 1 ≤ ch) (h2 : ch ≤ 16)
    (f : Nat → Bool) (k : Nat) (hf1 : f k = false) (hf2 : f (k + 1) = false) :
    _send_note (SrvSt.mk (some (MidiOut.mk f k)) (statusBytesForChannel ch).1
        (statusBytesForChannel ch).2) "C#4" =
      (SrvSt.mk (some (MidiOut.mk f (k + 2))) (statusBytesForChannel ch).1
        (statusBytesForChannel ch).2,
       [Ev.send [0x90 + (ch - 1), 61, 127], Ev.sleepMs 50,
        Ev.send [0x80 + (ch - 1), 61, 0]]) := by
  unfold _send_note
  rw [lookupCSharp4]
  simp [hf1, hf2, statusBytesForChannel]

/-- Witness for C2: channel 1 with a never-raising handle emits exactly
the note-on 0x90/61/127, the 50 ms hold, and the note-off 0x80/61/0. -/
theorem c2_witness :
    _send_note (SrvSt.mk (some (MidiOut.mk (fun _ => false) 0))
        (statusBytesForChannel 1).1 (statusBytesForChannel 1).2) "C#4" =
      (SrvSt.mk (some (MidiOut.mk (fun _ => false) 2))
        (statusBytesForChannel 1).1 (statusBytesForChannel 1).2,
       [Ev.send [0x90 + ((1 : Int) - 1), 61, 127], Ev.sleepMs 50,
        Ev.send [0x80 + ((1 : Int) - 1), 61, 0]]) :=
  c2_dispatch_note_on_off 1 (by norm_num) (by norm_num) (fun _ => false) 0 rfl rfl

/-- C7: literal matching is invariant under the NFKC+casefold
equivalence class of the query. `_norm` abstracts NFKC+casefold through
the environment; the hypothesis `hU` is the one property of that
normalization the source relies on, that only the empty string
normalizes to the empty string (NFKC maps no character to nothing and
casefolding is never empty), which covers the raw-emptiness test
`if not needle` of `_filter_by_name`. -/
theorem c7_literal_match_norm_invariant (U : PyUni)
    (hU : ∀ s, _norm U s = "" ↔ s = "") (recs : List PortRec) (q q' : String)
    (h : _norm U q = _norm U q') :
    _filter_by_name U recs q = _filter_by_name U recs q' := by
  by_cases hq : q = ""
  · have hnq : _norm U q = "" := (hU q).2 hq
    have hq' : q' = "" := (hU q').1 (h ▸ hnq)
    rw [hq, hq']
  · have hq' : q' ≠ "" := by
      intro hq'
      exact hq ((hU q).1 (h.trans ((hU q').2 hq')))
    simp only [_filter_by_name, if_neg hq, if_neg hq', h]

/-- Witness for C7: in the identity environment, the queries "Loop" and
"Loop" are norm-equal and filter a one-record list identically. -/
theorem c7_witness :
    _filter_by_name idUni [_record_for_port idUni "Loop A"] "Loop" =
      _filter_by_name idUni [_record_for_port idUni "Loop A"] "Loop" :=
  c7_literal_match_norm_invariant idUni (fun s => Iff.rfl)
    [_record_for_port idUni "Loop A"] "Loop" "Loop" rfl

/-- C10: a nonempty connection payload whose decoded text begins (after
stripping) with a comma yields an empty first token from the
[,\s]+-split, so the whole payload is ignored: the dispatcher is never
invoked, no action beyond the optional settimeout debug log occurs and
the server state is unchanged — even when a valid note name follows the
comma. -/
theorem c10_leading_comma_ignored (U : PyUni) (st : SrvSt) (sOk : Bool)
    (bs : List Nat) (hne : bs.isEmpty = false)
    (hcomma : (pyStrip (U.utf8decodeIgnore bs)).data.head? = some ',') :
    String.mk ((splitFields (pyStrip (U.utf8decodeIgnore bs)).data).headD []) = "" ∧
    _handle_conn U st (ConnEnv.mk sOk (RecvRes.data bs)) =
      (st, if sOk then [] else [Ev.logDebug]) := by
  have htok :
      String.mk ((splitFields (pyStrip (U.utf8decodeIgnore bs)).data).headD []) = "" := by
    cases hd : (pyStrip (U.utf8decodeIgnore bs)).data with
    | nil => rw [hd] at hcomma; cases hcomma
    | cons c rest =>
      rw [hd] at hcomma
      simp only [List.head?] at hcomma
      injection hcomma with hc
      subst hc
      simp [splitFields, splitFieldsGo, isSepChar]
  have htext : pyStrip (U.utf8decodeIgnore bs) ≠ "" := by
    intro he
    rw [he] at hcomma
    exact absurd hcomma (by decide)
  refine ⟨htok, ?_⟩
  unfold _handle_conn
  simp only [hne, Bool.false_eq_true, if_false, if_neg htext, htok, if_pos rfl]
  simp

/-- Witness for C10: the payload bytes of ",C#4" decode and strip to a
comma-led line, so the connection is ignored and the state untouched. -/
theorem c10_witness :
    String.mk ((splitFields (pyStrip (idUni.utf8decodeIgnore
      [44, 67, 35, 52])).data).headD []) = "" ∧
    _handle_conn idUni (SrvSt.mk none 0x90 0x80)
        (ConnEnv.mk true (RecvRes.data [44, 67, 35, 52])) =
      (SrvSt.mk none 0x90 0x80, if true then [] else [Ev.logDebug]) :=
  c10_leading_comma_ignored idUni (SrvSt.mk none 0x90 0x80) true
    [44, 67, 35, 52] (by decide) (by decide)

/-- Counterexample for C5 as stated: the accept-error branch of the loop
(server.py lines 311-314) performs only the 0.05 s backoff sleep and
invokes neither `_warn` nor `_debug` — the transient accept failure is
retried but not logged. -/
theorem c5_counterexample :
    _socket_server_iter idUni (SrvSt.mk none 0x90 0x80) AcceptRes.err =
      IterRes.continue_ (SrvSt.mk none 0x90 0x80) [Ev.sleepMs 50] ∧
    Ev.logWarn ∉ [Ev.sleepMs 50] ∧ Ev.logDebug ∉ [Ev.sleepMs 50] :=
  ⟨rfl, by decide, by decide⟩

/-- C5 (amended): the accept loop never exits the process — every
iteration, whatever the accept outcome and whatever happens inside the
handling of the accepted connection (timeout, read error, empty read,
malformed payload, dispatch failure), continues to the next accept; a
transient accept failure is silently retried after a short (50 ms)
backoff without logging. -/
theorem c5_accept_loop_never_exits (U : PyUni) (st : SrvSt) (a : AcceptRes) :
    (∃ st' acts, _socket_server_iter U st a = IterRes.continue_ st' acts) ∧
    _socket_server_iter U st AcceptRes.err = IterRes.continue_ st [Ev.sleepMs 50] := by
  constructor
  · cases a with
    | err => exact ⟨st, [Ev.sleepMs 50], rfl⟩
    | conn c => exact ⟨(_handle_conn U st c).1, (_handle_conn U st c).2, rfl⟩
  · rfl

/-- Keeping only differing candidates inside the encode/decode loop is
the same as filtering them out of the raw candidate list afterwards. -/
theorem filterMapFilterEq (U : PyUni) (s : String) (l : List String) :
    l.filterMap (fun enc =>
      match U.encode enc s with
      | none => none
      | some b =>
        match U.utf8decodeStrict b with
        | none => none
        | some cand => if cand = s then none else some cand) =
    (l.filterMap (fun enc => (U.encode enc s).bind U.utf8decodeStrict)).filter
      (fun c => c != s) := by
  induction l with
  | nil => rfl
  | cons e es ih =>
    rw [List.filterMap_cons, List.filterMap_cons]
    cases he : U.encode e s with
    | none =>
      simp only [he]
      exact ih
    | some b =>
      cases hd : U.utf8decodeStrict b with
      | none =>
        simp only [he, hd, Option.some_bind]
        exact ih
      | some cand =>
        by_cases hc : cand = s
        · subst hc
          simp only [he, hd, Option.some_bind, if_pos rfl, List.filter_cons,
            bne_self_eq_false, Bool.false_eq_true, if_false]
          exact ih
        · simp only [he, hd, Option.some_bind, if_neg hc, List.filter_cons]
          rw [if_pos (by simpa using hc)]
          rw [ih]

/-- C6: healing is the identity on every name with no mojibake-hint
character, and on every name it implements exactly the candidate
construction and selection policy worded by the claim (`healSpecC6`):
cp1252, mac_roman, latin-1 in order, strict round trip through UTF-8,
candidates differing from the input deduplicated first-seen, preferring
the first candidate with a Kana/CJK character, else the first candidate,
else the original. -/
theorem c6_healing (U : PyUni) (s : String) :
    (_looks_mojibake s = false → _port_display U s = s) ∧
    _port_display U s = healSpecC6 U s := by
  constructor
  · intro h
    unfold _port_display
    rw [h]
    simp
  · unfold _port_display healSpecC6
    by_cases h : _looks_mojibake s
    · simp only [h, if_true]
      unfold _variants_from_mojibake
      rw [filterMapFilterEq]
      cases hf : ((encNames.filterMap
          (fun enc => (U.encode enc s).bind U.utf8decodeStrict)).filter
            (fun c => c != s)) with
      | nil => simp [dedupFirstSeen]
      | cons f fs =>
        cases hfind : (dedupFirstSeen [] (f :: fs)).find?
            (fun f => f.data.any isCjkKana) with
        | none =>
          simp only [hfind]
          cases dedupFirstSeen [] (f :: fs) with
          | nil => simp
          | cons g gs => simp
        | some g => simp [hfind]
    · simp [h]

/-- Witness for C6: a plain ASCII name has no hint character and heals
to itself, agreeing with the claim's selection policy. -/
theorem c6_witness :
    _port_display idUni "Loop A" = "Loop A" ∧
    _port_display idUni "Loop A" = healSpecC6 idUni "Loop A" :=
  ⟨(c6_healing idUni "Loop A").1 (by decide), (c6_healing idUni "Loop A").2⟩

/-- The repeated filter block of `_resolve_port` coincides with
extracting the spec's FilterSpec from the section and applying it
through the Matcher. -/
theorem sectionFilterEqSpec (U : PyUni) (sec : Yaml) (rs : List PortRec) :
    _apply_section_filter U sec rs =
      applyFilterSpec U (filterSpecOfSection sec) rs := by
  cases sec with
  | dict kvs =>
    by_cases h1 : optTruthy (alGet kvs "name") = true
    · simp [_apply_section_filter, filterSpecOfSection, applyFilterSpec, h1]
    · by_cases h2 : optTruthy (alGet kvs "regex") = true
      · simp [_apply_section_filter, filterSpecOfSection, applyFilterSpec, h1, h2]
      · simp [_apply_section_filter, filterSpecOfSection, applyFilterSpec, h1, h2]
  | null => rfl
  | bool b => rfl
  | int n => rfl
  | str s => rfl
  | list xs => rfl

/-- C1: whenever the (defaulted) midi section of the configuration is a
dict — the domain on which `_resolve_port` runs without raising — the
resolution applies the optional device-level filter and then the
optional port-level filter, in that fixed order, and succeeds exactly
when one record remains, returning that record's original name and its
healed display; otherwise it returns no name, the healed display names
of the matched subset, and the full unfiltered healed display list
(`resolveSpecC1`, worded from the claim). -/
theorem c1_resolution_order_and_outcome (U : PyUni) (ports : List String)
    (cfg : List (String × Yaml))
    (h : (pyOr (alGet cfg "midi") (Yaml.dict [])).isDict = true) :
    _resolve_port U ports cfg = Except.ok (resolveSpecC1 U ports cfg) := by
  unfold _resolve_port resolveSpecC1
  cases hm : pyOr (alGet cfg "midi") (Yaml.dict []) with
  | dict mkvs =>
    simp only [sectionFilterEqSpec]
    cases applyFilterSpec U
        (filterSpecOfSection (pyOr (alGet mkvs "port") (Yaml.dict [])))
        (applyFilterSpec U
          (filterSpecOfSection (pyOr (alGet mkvs "device") (Yaml.dict [])))
          (ports.map (_record_for_port U))) with
    | nil => rfl
    | cons m ms =>
      cases ms with
      | nil => rfl
      | cons m2 ms2 => rfl
  | null => rw [hm] at h; cases h
  | bool b => rw [hm] at h; cases h
  | int n => rw [hm] at h; cases h
  | str s => rw [hm] at h; cases h
  | list xs => rw [hm] at h; cases h

/-- Witness for C1: two enumerated ports, a literal device filter
matching exactly one — resolution succeeds with that port's original
name, its display, and the full display list. -/
theorem c1_witness :
    (pyOr (alGet [("midi", Yaml.dict [("device", Yaml.dict
        [("name", Yaml.str "Loop A")])])] "midi") (Yaml.dict [])).isDict = true ∧
    _resolve_port idUni ["Loop A", "Loop B"]
        [("midi", Yaml.dict [("device", Yaml.dict [("name", Yaml.str "Loop A")])])] =
      Except.ok (resolveSpecC1 idUni ["Loop A", "Loop B"]
        [("midi", Yaml.dict [("device", Yaml.dict [("name", Yaml.str "Loop A")])])]) :=
  ⟨rfl, c1_resolution_order_and_outcome idUni ["Loop A", "Loop B"]
    [("midi", Yaml.dict [("device", Yaml.dict [("name", Yaml.str "Loop A")])])] rfl⟩

/-- Result assembly of `_resolve_port` from the full record list and the
matched subset. -/
def resolveOutcome (recs matched : List PortRec) :
    Option String × List String × List String :=
  match matched with
  | [m] => (some m.orig, [m.disp], recs.map PortRec.disp)
  | _ => (none, matched.map PortRec.disp, recs.map PortRec.disp)

/-- Characterization of `_resolve_port` on a dict-shaped midi section:
device filter, then port filter, then the outcome assembly. -/
theorem resolvePortEq (U : PyUni) (ports : List String)
    (cfg : List (String × Yaml)) (mkvs : List (String × Yaml))
    (hm : pyOr (alGet cfg "midi") (Yaml.dict []) = Yaml.dict mkvs) :
    _resolve_port U ports cfg = Except.ok (resolveOutcome
      (ports.map (_record_for_port U))
      (_apply_section_filter U (pyOr (alGet mkvs "port") (Yaml.dict []))
        (_apply_section_filter U (pyOr (alGet mkvs "device") (Yaml.dict []))
          (ports.map (_record_for_port U))))) := by
  unfold _resolve_port
  rw [hm]
  dsimp only
  cases _apply_section_filter U (pyOr (alGet mkvs "port") (Yaml.dict []))
      (_apply_section_filter U (pyOr (alGet mkvs "device") (Yaml.dict []))
        (ports.map (_record_for_port U))) with
  | nil => rfl
  | cons m ms =>
    cases ms with
    | nil => rfl
    | cons m2 ms2 => rfl

/-- In a filter section holding both a truthy name and a regex, the
regex binding is dead: the section filters exactly as the section with
the regex key dropped. -/
theorem sectionNameWithRegex (U : PyUni) (v w : Yaml) (rs : List PortRec)
    (hv : pyTruthy v = true) :
    _apply_section_filter U (Yaml.dict [("name", v), ("regex", w)]) rs =
      _apply_section_filter U (Yaml.dict [("name", v)]) rs := by
  simp only [_apply_section_filter]
  simp only [show alGet [("name", v), ("regex", w)] "name" = some v from rfl,
    show alGet [("name", v)] "name" = some v from rfl]
  simp [optTruthy, hv]

/-- In a filter section holding a falsy name and a regex, the name
binding is dead: the section filters exactly as the regex-only section. -/
theorem sectionFalsyNameRegex (U : PyUni) (v w : Yaml) (rs : List PortRec)
    (hv : pyTruthy v = false) :
    _apply_section_filter U (Yaml.dict [("name", v), ("regex", w)]) rs =
      _apply_section_filter U (Yaml.dict [("regex", w)]) rs := by
  simp only [_apply_section_filter]
  simp only [show alGet [("name", v), ("regex", w)] "name" = some v from rfl,
    show alGet [("name", v), ("regex", w)] "regex" = some w from rfl,
    show alGet [("regex", w)] "name" = (none : Option Yaml) from rfl,
    show alGet [("regex", w)] "regex" = some w from rfl]
  simp [optTruthy, hv]

/-- C9: a filter section carrying both a truthy (e.g. non-empty string)
`name` and any `regex` resolves exactly as if the regex key were absent,
at the device level and at the port level alike; the regex is consulted
only when the name value is falsy (absent, empty or null), in which case
the section resolves as the regex-only section. -/
theorem c9_name_overrides_regex (U : PyUni) (ports : List String) (v w : Yaml)
    (hv : pyTruthy v = true) :
    (_resolve_port U ports
        [("midi", Yaml.dict [("device", Yaml.dict [("name", v), ("regex", w)])])] =
      _resolve_port U ports
        [("midi", Yaml.dict [("device", Yaml.dict [("name", v)])])]) ∧
    (_resolve_port U ports
        [("midi", Yaml.dict [("port", Yaml.dict [("name", v), ("regex", w)])])] =
      _resolve_port U ports
        [("midi", Yaml.dict [("port", Yaml.dict [("name", v)])])]) ∧
    (∀ v', pyTruthy v' = false →
      _resolve_port U ports
          [("midi", Yaml.dict [("device", Yaml.dict [("name", v'), ("regex", w)])])] =
        _resolve_port U ports
          [("midi", Yaml.dict [("device", Yaml.dict [("regex", w)])])]) := by
  refine ⟨?_, ?_, ?_⟩
  · rw [resolvePortEq U ports
        [("midi", Yaml.dict [("device", Yaml.dict [("name", v), ("regex", w)])])]
        [("device", Yaml.dict [("name", v), ("regex", w)])] rfl,
      resolvePortEq U ports
        [("midi", Yaml.dict [("device", Yaml.dict [("name", v)])])]
        [("device", Yaml.dict [("name", v)])] rfl]
    simp only [show pyOr (alGet [("device", Yaml.dict [("name", v), ("regex", w)])]
        "device") (Yaml.dict []) = Yaml.dict [("name", v), ("regex", w)] from rfl,
      show pyOr (alGet [("device", Yaml.dict [("name", v)])] "device")
        (Yaml.dict []) = Yaml.dict [("name", v)] from rfl,
      show pyOr (alGet [("device", Yaml.dict [("name", v), ("regex", w)])] "port")
        (Yaml.dict []) = Yaml.dict [] from rfl,
      show pyOr (alGet [("device", Yaml.dict [("name", v)])] "port")
        (Yaml.dict []) = Yaml.dict [] from rfl]
    rw [sectionNameWithRegex U v w _ hv]
  · rw [resolvePortEq U ports
        [("midi", Yaml.dict [("port", Yaml.dict [("name", v), ("regex", w)])])]
        [("port", Yaml.dict [("name", v), ("regex", w)])] rfl,
      resolvePortEq U ports
        [("midi", Yaml.dict [("port", Yaml.dict [("name", v)])])]
        [("port", Yaml.dict [("name", v)])] rfl]
    simp only [show pyOr (alGet [("port", Yaml.dict [("name", v), ("regex", w)])]
        "device") (Yaml.dict []) = Yaml.dict [] from rfl,
      show pyOr (alGet [("port", Yaml.dict [("name", v)])] "device")
        (Yaml.dict []) = Yaml.dict [] from rfl,
      show pyOr (alGet [("port", Yaml.dict [("name", v), ("regex", w)])] "port")
        (Yaml.dict []) = Yaml.dict [("name", v), ("regex", w)] from rfl,
      show pyOr (alGet [("port", Yaml.dict [("name", v)])] "port")
        (Yaml.dict []) = Yaml.dict [("name", v)] from rfl]
    rw [sectionNameWithRegex U v w _ hv]
  · intro v' hv'
    rw [resolvePortEq U ports
        [("midi", Yaml.dict [("device", Yaml.dict [("name", v'), ("regex", w)])])]
        [("device", Yaml.dict [("name", v'), ("regex", w)])] rfl,
      resolvePortEq U ports
        [("midi", Yaml.dict [("device", Yaml.dict [("regex", w)])])]
        [("device", Yaml.dict [("regex", w)])] rfl]
    simp only [show pyOr (alGet [("device", Yaml.dict [("name", v'), ("regex", w)])]
        "device") (Yaml.dict []) = Yaml.dict [("name", v'), ("regex", w)] from rfl,
      show pyOr (alGet [("device", Yaml.dict [("regex", w)])] "device")
        (Yaml.dict []) = Yaml.dict [("regex", w)] from rfl,
      show pyOr (alGet [("device", Yaml.dict [("name", v'), ("regex", w)])] "port")
        (Yaml.dict []) = Yaml.dict [] from rfl,
      show pyOr (alGet [("device", Yaml.dict [("regex", w)])] "port")
        (Yaml.dict []) = Yaml.dict [] from rfl]
    rw [sectionFalsyNameRegex U v' w _ hv']

/-- Witness for C9: with ports "Loop A"/"Loop B", a truthy name
"Loop A" beside the regex "^Z" resolves as the name-only section at both
levels, and an empty (falsy) name defers to the regex-only section. -/
theorem c9_witness :
    (_resolve_port idUni ["Loop A", "Loop B"]
        [("midi", Yaml.dict [("device", Yaml.dict
          [("name", Yaml.str "Loop A"), ("regex", Yaml.str "^Z")])])] =
      _resolve_port idUni ["Loop A", "Loop B"]
        [("midi", Yaml.dict [("device", Yaml.dict
          [("name", Yaml.str "Loop A")])])]) ∧
    (_resolve_port idUni ["Loop A", "Loop B"]
        [("midi", Yaml.dict [("port", Yaml.dict
          [("name", Yaml.str "Loop A"), ("regex", Yaml.str "^Z")])])] =
      _resolve_port idUni ["Loop A", "Loop B"]
        [("midi", Yaml.dict [("port", Yaml.dict
          [("name", Yaml.str "Loop A")])])]) ∧
    (_resolve_port idUni ["Loop A", "Loop B"]
        [("midi", Yaml.dict [("device", Yaml.dict
          [("name", Yaml.str ""), ("regex", Yaml.str "^Z")])])] =
      _resolve_port idUni ["Loop A", "Loop B"]
        [("midi", Yaml.dict [("device", Yaml.dict
          [("regex", Yaml.str "^Z")])])]) :=
  ⟨(c9_name_overrides_regex idUni ["Loop A", "Loop B"]
      (Yaml.str "Loop A") (Yaml.str "^Z") rfl).1,
   (c9_name_overrides_regex idUni ["Loop A", "Loop B"]
      (Yaml.str "Loop A") (Yaml.str "^Z") rfl).2.1,
   (c9_name_overrides_regex idUni ["Loop A", "Loop B"]
      (Yaml.str "Loop A") (Yaml.str "^Z") rfl).2.2 (Yaml.str "") rfl⟩
